import Mathlib

/-!
Formal model of krun's launch coordination (crates/krun/src/launch.rs).

The module under study coordinates many krun invocations around one
long-lived server: leader election through an advisory lock file whose
contents publish the leader's port, a line-delimited TCP launch protocol,
a bounded retry policy for followers, and a socat relay used to tunnel
interactive sessions over vsock.

The embedding below translates each function of launch.rs into a pure
Lean function.  Effectful steps (TCP connect, writes, flock, the
filesystem) are made explicit: the file system is an `FsState` record,
flock outcomes and network step outcomes are inputs, and the per-attempt
result of `wrapped_launch` inside the retry loop is an oracle
`Nat → Except LaunchError Unit` giving the outcome of the i-th call.
-/

namespace Krun

/-- Error taxonomy of launch.rs (`enum LaunchError`): transport failures,
JSON serialization failures, and errors reported by the server. -/
inductive LaunchError where
  | Connection (msg : String)
  | Json (msg : String)
  | Server (msg : String)
deriving DecidableEq, Repr

/-- The retry loop in `launch_or_lock` pattern-matches
`Some(&LaunchError::Connection(_))` against everything else: only
Connection-class errors are retryable. -/
def LaunchError.retryable : LaunchError → Bool
  | .Connection _ => true
  | .Json _ => false
  | .Server _ => false

/-- Rust's `str::parse::<u32>()`: an optional leading `+`, then at least
one ASCII digit and nothing else, with the value required to fit in 32
bits (overflow is a parse error). -/
def parse_u32 (s : String) : Option Nat :=
  let cs := s.data
  let ds := match cs with
    | '+' :: rest => rest
    | _ => cs
  if ds.isEmpty then none
  else if ds.all Char.isDigit then
    let v := ds.foldl (fun acc c => acc * 10 + (c.toNat - 48)) 0
    if v < 4294967296 then some v else none
  else none

/-- The lock file as seen by this module: whether the path exists and its
byte contents (modelled as the string the code obtains via
`to_string_lossy`). -/
structure FsState where
  lockExists : Bool
  contents : String
deriving DecidableEq, Repr

/-- `File::set_len(0)`: truncate to zero length. -/
def fsSetLen0 (st : FsState) : FsState := { st with contents := "" }

/-- `write_all` at the current cursor (always position 0 here, right
after truncation or creation): append to the contents. -/
def fsWriteAll (st : FsState) (s : String) : FsState :=
  { st with contents := st.contents ++ s }

/-- Outcome of `lock_file`: the `(Option File, Option u32)` pair of the
source, plus the error case of the fresh-file flock failing. -/
inductive LockOutcome where
  | acquired
  | busy (port : Option Nat)
  | lockErr
deriving DecidableEq, Repr

/-- The port extraction of `lock_file`'s busy branch:
`data.to_string_lossy().parse::<u32>()`, then keep the port only if it
is strictly greater than 1024. -/
def busy_port (data : String) : Option Nat :=
  match parse_u32 data with
  | .some port => if port > 1024 then some port else none
  | .none => none

/-- `lock_file(server_port)` from launch.rs.  `flockFails` is the outcome
of the non-blocking exclusive flock attempt (true when another process
holds the lock).  Returns the outcome together with the file state after
the call. -/
def lock_file (server_port : Nat) (flockFails : Bool) (st : FsState) :
    LockOutcome × FsState :=
  if st.lockExists = false then
    let created : FsState := ⟨true, ""⟩
    if flockFails then (.lockErr, created)
    else (.acquired, fsWriteAll (fsSetLen0 created) (Nat.repr server_port))
  else
    if flockFails then
      (.busy (busy_port st.contents), st)
    else
      (.acquired, fsWriteAll (fsSetLen0 st) (Nat.repr server_port))

/-- The characters `escape_for_socat` escapes — exactly the ones matched
by the source's `match c`. -/
def socat_special (c : Char) : Bool :=
  c = ':' || c = ',' || c = '!' || c = '"' || c = '\'' || c = '\\' ||
    c = '(' || c = '[' || c = '{'

/-- `escape_for_socat` from launch.rs: walk the characters, pushing a
backslash before each special character, then the character itself. -/
def escape_for_socat (s : String) : String :=
  s.data.foldl
    (fun ret c =>
      if socat_special c then (ret.push '\\').push c else ret.push c)
    ""

/-- Modelled from the spec's escaping sentence: every occurrence of the
listed characters is preceded by a backslash, all other characters pass
through unchanged, order preserved.  Used only to compare against
`escape_for_socat`. -/
def spec_escape_chars : List Char → List Char
  | [] => []
  | c :: cs =>
      (if socat_special c then ['\\', c] else [c]) ++ spec_escape_chars cs

/-- String form of `spec_escape_chars`. -/
def spec_escape (s : String) : String := ⟨spec_escape_chars s.data⟩

/-- `DYNAMIC_PORT_RANGE: Range<u32> = 50000..50200` as (start, end). -/
def DYNAMIC_PORT_RANGE : Nat × Nat := (50000, 50200)

/-- The `for port in DYNAMIC_PORT_RANGE` loop of `start_socat`: starting
at `port`, try `count` consecutive ports, skipping any whose socket path
exists (`occupied`), and return the first free one; `none` models the
"Ran out of ports." error after the loop. -/
def scan_from (occupied : Nat → Bool) (port : Nat) : Nat → Option Nat
  | 0 => none
  | c + 1 => if occupied port then scan_from occupied (port + 1) c else some port

/-- The port selection of `start_socat`: scan `DYNAMIC_PORT_RANGE` for
the first port whose path `runtime_dir/krun/socket/port-<N>` does not
exist.  `occupied p` models `path.exists()` for port `p`. -/
def start_socat (occupied : Nat → Bool) : Option Nat :=
  scan_from occupied DYNAMIC_PORT_RANGE.1
    (DYNAMIC_PORT_RANGE.2 - DYNAMIC_PORT_RANGE.1)

/-- The effectful steps of `request_launch`, in program order: TCP
connect, `serde_json::to_string`, the two `write_all`s, `flush`, and
`read_line`.  Each field gives that step's outcome (`.error` carries the
io / serde error message; `readLine`'s `.ok` carries the line read). -/
structure NetModel where
  connect : Except String Unit
  serialize : Except String String
  writeJson : Except String Unit
  writeEom : Except String Unit
  flush : Except String Unit
  readLine : Except String String

/-- `request_launch` from launch.rs: connect, serialize, send the JSON
then the `\nEOM\n` sentinel, flush, read one line; `"OK"` is success and
any other line is returned whole as a Server error. -/
def request_launch (net : NetModel) : Except LaunchError Unit :=
  match net.connect with
  | .error e => .error (.Connection e)
  | .ok _ =>
    match net.serialize with
    | .error e => .error (.Json e)
    | .ok _ =>
      match net.writeJson with
      | .error e => .error (.Connection e)
      | .ok _ =>
        match net.writeEom with
        | .error e => .error (.Connection e)
        | .ok _ =>
          match net.flush with
          | .error e => .error (.Connection e)
          | .ok _ =>
            match net.readLine with
            | .error e => .error (.Connection e)
            | .ok resp =>
              if resp = "OK" then .ok () else .error (.Server resp)

/-- Result of the retry loop in `launch_or_lock`'s losing-candidate
branch. -/
inductive LoopOutcome where
  | requested
  | fatal (e : LaunchError)
deriving DecidableEq, Repr

/-- The `loop` of `launch_or_lock`'s losing-candidate branch.  `att i` is
the outcome of the i-th `wrapped_launch` call; `remaining` is the number
of retries left (the source counts up with `tries` and stops at
`tries == 3`; here `remaining = 3 - tries`, so `remaining = 0` is the
source's `tries == 3`).  Returns the outcome together with the number of
`wrapped_launch` calls made. -/
def launch_loop (att : Nat → Except LaunchError Unit) (i : Nat)
    (remaining : Nat) : LoopOutcome × Nat :=
  match att i, remaining with
  | .ok _, _ => (.requested, 1)
  | .error (.Connection m), 0 => (.fatal (.Connection m), 1)
  | .error (.Connection _), r + 1 =>
    let p := launch_loop att (i + 1) r
    (p.1, p.2 + 1)
  | .error (.Json m), _ => (.fatal (.Json m), 1)
  | .error (.Server m), _ => (.fatal (.Server m), 1)

/-- The request actually handed to `request_launch` by `wrapped_launch`:
in the non-interactive case the original command and args; in the
interactive case the command is prepended to the args, joined with
spaces, escaped, and wrapped into a two-argument socat invocation
targeting the chosen vsock port. -/
def wrapped_launch_request (command : String) (command_args : List String)
    (interactive : Bool) (vsock_port : Nat) : String × List String :=
  if interactive = false then (command, command_args)
  else
    let args := command :: command_args
    ("socat",
      ["vsock:2:" ++ Nat.repr vsock_port,
        "exec:" ++ escape_for_socat (String.intercalate " " args) ++
          ",pty,setsid,stderr"])

/-- The fatal error classes surfaced by `launch_or_lock`. -/
inductive OrchError where
  | badPortVar
  | envPrepFailed
  | forwardFailed (e : LaunchError)
  | lockFailed
  | noServerPort
deriving DecidableEq, Repr

/-- `LaunchResult` of launch.rs plus the error case of the surrounding
`Result`: either a forward happened, or the caller won leadership (and
keeps the still-locked file plus the original request), or a fatal
error. -/
inductive OrchResult where
  | launchRequested
  | lockAcquired (command : String) (command_args : List String)
      (env : List (String × Option String))
  | error (e : OrchError)
deriving DecidableEq, Repr

/-- Observable outcome of one `launch_or_lock` call: its result, how many
forwarding attempts (`wrapped_launch` calls) it made, and the lock-file
state afterwards. -/
structure OrchOutput where
  result : OrchResult
  attempts : Nat
  fs : FsState
deriving DecidableEq, Repr

/-- `launch_or_lock` from launch.rs.  `krunPortVar` is
`env::var("KRUN_SERVER_PORT").ok()`; `envPrepOk` is whether
`prepare_env_vars` succeeds; `flockFails` and `st` feed `lock_file`;
`att` gives each `wrapped_launch` outcome. -/
def launch_or_lock (krunPortVar : Option String) (server_port : Nat)
    (command : String) (command_args : List String)
    (env : List (String × Option String)) (envPrepOk : Bool)
    (flockFails : Bool) (st : FsState)
    (att : Nat → Except LaunchError Unit) : OrchOutput :=
  match krunPortVar with
  | some s =>
    match parse_u32 s with
    | none => ⟨.error .badPortVar, 0, st⟩
    | some _ =>
      if envPrepOk = false then ⟨.error .envPrepFailed, 0, st⟩
      else
        match att 0 with
        | .ok _ => ⟨.launchRequested, 1, st⟩
        | .error e => ⟨.error (.forwardFailed e), 1, st⟩
  | none =>
    let r := lock_file server_port flockFails st
    match r.1 with
    | .acquired => ⟨.lockAcquired command command_args env, 0, r.2⟩
    | .lockErr => ⟨.error .lockFailed, 0, r.2⟩
    | .busy (some _) =>
      if envPrepOk = false then ⟨.error .envPrepFailed, 0, r.2⟩
      else
        let p := launch_loop att 0 3
        match p.1 with
        | .requested => ⟨.launchRequested, p.2, r.2⟩
        | .fatal e => ⟨.error (.forwardFailed e), p.2, r.2⟩
    | .busy none => ⟨.error .noServerPort, 0, r.2⟩

/-! ## Helper lemmas -/

theorem data_spec_escape (l : List Char) : (spec_escape ⟨l⟩).data = spec_escape_chars l := rfl

/-- The accumulator form of `escape_for_socat`'s fold agrees with the
character-list description of the escaping rule. -/
theorem escape_foldl_eq (l : List Char) : ∀ acc : String,
    l.foldl
        (fun ret c =>
          if socat_special c then (ret.push '\\').push c else ret.push c)
        acc
      = ⟨acc.data ++ spec_escape_chars l⟩ := by
  induction l with
  | nil =>
    intro acc
    apply String.ext
    simp [spec_escape_chars]
  | cons c cs ih =>
    intro acc
    rw [List.foldl_cons, ih]
    apply String.ext
    by_cases h : socat_special c <;>
      simp [h, spec_escape_chars, String.data_push]

/-- `escape_for_socat` implements the spec's escaping rule. -/
theorem escape_for_socat_eq_spec (s : String) :
    escape_for_socat s = spec_escape s := by
  rw [escape_for_socat, escape_foldl_eq]
  apply String.ext
  simp [spec_escape]

/-- Characterization of the busy-branch port extraction. -/
theorem busy_port_some_iff (d : String) (q : Nat) :
    busy_port d = some q ↔ parse_u32 d = some q ∧ 1024 < q := by
  unfold busy_port
  cases h : parse_u32 d with
  | none => simp
  | some v =>
    by_cases hv : v > 1024 <;> simp [hv] <;> omega

/-! ## Claim theorems -/

/-- C5: `escape_for_socat` inserts a single backslash immediately before
each occurrence of exactly the characters in `socat_special` and passes
every other character through unchanged, preserving order; in particular
it maps "a:b,c!d" to "a\:b\,c\!d". -/
theorem escape_for_socat_correct :
    (∀ s : String, escape_for_socat s = spec_escape s) ∧
      escape_for_socat "a:b,c!d" = "a\\:b\\,c\\!d" :=
  ⟨escape_for_socat_eq_spec, by decide⟩

/-- C7: the interactive path of `wrapped_launch` sends a request whose
command is the relay binary `socat` and whose argument list has exactly
two elements: a vsock destination spec naming the chosen port, and an
`exec:` spec holding the original command prepended to the original
arguments, joined with spaces, escaped by the escaping rule, with the
pty, setsid and stderr options appended. -/
theorem wrapped_launch_interactive_request (command : String)
    (command_args : List String) (vsock_port : Nat) :
    (wrapped_launch_request command command_args true vsock_port).1 = "socat" ∧
    (wrapped_launch_request command command_args true vsock_port).2.length = 2 ∧
    (wrapped_launch_request command command_args true vsock_port).2 =
      ["vsock:2:" ++ Nat.repr vsock_port,
        "exec:" ++
            spec_escape (String.intercalate " " (command :: command_args)) ++
          ",pty,setsid,stderr"] := by
  refine ⟨rfl, rfl, ?_⟩
  simp [wrapped_launch_request, escape_for_socat_eq_spec]

/-- C4: when `lock_file` acquires the lock it truncates the file and
writes the decimal form of the candidate port, leaving exactly that
string and no residual bytes; a file holding "60000" re-elected with
port 5000 holds exactly "5000". -/
theorem lock_file_acquired_overwrites (st : FsState) (server_port : Nat) :
    (lock_file server_port false st).1 = .acquired ∧
    (lock_file server_port false st).2.contents = Nat.repr server_port ∧
    (lock_file 5000 false ⟨true, "60000"⟩).2.contents = "5000" := by
  refine ⟨?_, ?_, by decide⟩ <;>
    cases h : st.lockExists <;>
      simp [lock_file, h, fsWriteAll, fsSetLen0]

/-- C10: whenever `lock_file` returns the Busy outcome it performs no
write or truncation: the file state after the call is identical to the
state before. -/
theorem lock_file_busy_frame (server_port : Nat) (flockFails : Bool)
    (st : FsState) (port : Option Nat)
    (h : (lock_file server_port flockFails st).1 = .busy port) :
    (lock_file server_port flockFails st).2 = st := by
  cases hex : st.lockExists <;> cases hff : flockFails <;>
    simp [lock_file, hex, hff] at h ⊢

/-- Witness for C10 at a concrete busy call. -/
theorem lock_file_busy_frame_witness :
    (lock_file 9999 true ⟨true, "55123"⟩).2 = ⟨true, "55123"⟩ :=
  lock_file_busy_frame 9999 true ⟨true, "55123"⟩ (some 55123) (by decide)

/-- C3: when the lock attempt fails, `lock_file` reports Busy with
`some port` exactly when the full file contents parse as a 32-bit
unsigned integer strictly greater than 1024, and Busy with `none` when
parsing fails or the value is at most 1024; "42" yields `none` and
"55123" yields `some 55123`. -/
theorem lock_file_busy_port_spec (st : FsState) (server_port q : Nat)
    (hex : st.lockExists = true) :
    (lock_file server_port true st).1 = .busy (busy_port st.contents) ∧
    (busy_port st.contents = some q ↔
      parse_u32 st.contents = some q ∧ 1024 < q) ∧
    ((parse_u32 st.contents = none ∨
        (∃ v, parse_u32 st.contents = some v ∧ v ≤ 1024)) →
      busy_port st.contents = none) ∧
    (st.contents = "42" →
      (lock_file server_port true st).1 = .busy none) ∧
    (st.contents = "55123" →
      (lock_file server_port true st).1 = .busy (some 55123)) := by
  refine ⟨by simp [lock_file, hex], busy_port_some_iff st.contents q, ?_, ?_, ?_⟩
  · rintro (h | ⟨v, hv, hle⟩)
    · simp [busy_port, h]
    · have hnv : ¬ (v > 1024) := by omega
      simp [busy_port, hv, hnv]
  · intro hc
    simp [lock_file, hex, hc]
    decide
  · intro hc
    simp [lock_file, hex, hc]
    decide

/-- Witness for C3 at a lock file published by a live leader. -/
theorem lock_file_busy_port_spec_witness :
    (lock_file 1 true ⟨true, "55123"⟩).1 = .busy (some 55123) :=
  (lock_file_busy_port_spec ⟨true, "55123"⟩ 1 0 rfl).2.2.2.2 rfl

/-- C9: a present but unparseable KRUN_SERVER_PORT value makes
`launch_or_lock` fail before any lock acquisition or forwarding attempt:
the result is the parse error, zero forwarding attempts are made, and
the lock file is untouched. -/
theorem launch_or_lock_bad_port_var (s : String) (hs : parse_u32 s = none)
    (server_port : Nat) (command : String) (command_args : List String)
    (env : List (String × Option String)) (envPrepOk flockFails : Bool)
    (st : FsState) (att : Nat → Except LaunchError Unit) :
    launch_or_lock (some s) server_port command command_args env envPrepOk
        flockFails st att
      = ⟨.error .badPortVar, 0, st⟩ := by
  simp [launch_or_lock, hs]

/-- Witness for C9 with the malformed value "123abc". -/
theorem launch_or_lock_bad_port_var_witness :
    launch_or_lock (some "123abc") 8000 "/bin/true" [] [] true false
        ⟨false, ""⟩ (fun _ => .ok ())
      = ⟨.error .badPortVar, 0, ⟨false, ""⟩⟩ :=
  launch_or_lock_bad_port_var "123abc" (by decide) 8000 "/bin/true" [] []
    true false ⟨false, ""⟩ (fun _ => .ok ())

/-- C8: with no server port known from the environment and a busy lock
that published no valid port, `launch_or_lock` fails immediately: no
forwarding attempt is made, the result does not depend on the forwarding
oracle, and the lock file is untouched. -/
theorem launch_or_lock_busy_no_port (server_port : Nat) (command : String)
    (command_args : List String) (env : List (String × Option String))
    (envPrepOk : Bool) (st : FsState)
    (att : Nat → Except LaunchError Unit)
    (hex : st.lockExists = true) (hbp : busy_port st.contents = none) :
    launch_or_lock none server_port command command_args env envPrepOk
        true st att
      = ⟨.error .noServerPort, 0, st⟩ ∧
    (∀ att2 : Nat → Except LaunchError Unit,
      launch_or_lock none server_port command command_args env envPrepOk
          true st att2
        = launch_or_lock none server_port command command_args env envPrepOk
            true st att) := by
  constructor
  · simp [launch_or_lock, lock_file, hex, hbp]
  · intro att2
    simp [launch_or_lock, lock_file, hex, hbp]

/-- Witness for C8 with a lock file whose contents publish no usable
port. -/
theorem launch_or_lock_busy_no_port_witness :
    launch_or_lock none 8000 "/bin/true" [] [] true true ⟨true, "42"⟩
        (fun _ => .ok ())
      = ⟨.error .noServerPort, 0, ⟨true, "42"⟩⟩ :=
  (launch_or_lock_busy_no_port 8000 "/bin/true" [] [] true ⟨true, "42"⟩
      (fun _ => .ok ()) rfl (by decide)).1

/-- A successful scan starting at `port` with `count` candidates returns
a free port in range, and every port before it was occupied. -/
theorem scan_from_some_spec (occupied : Nat → Bool) :
    ∀ count port p, scan_from occupied port count = some p →
      port ≤ p ∧ p < port + count ∧ occupied p = false ∧
        ∀ q, port ≤ q → q < p → occupied q = true := by
  intro count
  induction count with
  | zero => intro port p h; simp [scan_from] at h
  | succ c ih =>
    intro port p h
    rw [scan_from] at h
    cases hocc : occupied port with
    | true =>
      rw [if_pos (by simp [hocc])] at h
      obtain ⟨h1, h2, h3, h4⟩ := ih (port + 1) p h
      refine ⟨by omega, by omega, h3, ?_⟩
      intro q hq1 hq2
      rcases Nat.eq_or_lt_of_le hq1 with rfl | hlt
      · exact hocc
      · exact h4 q hlt hq2
    | false =>
      rw [if_neg (by simp [hocc])] at h
      obtain rfl : port = p := by simpa using h
      exact ⟨Nat.le_refl _, by omega, hocc, fun q hq1 hq2 => by omega⟩

/-- If every port in the scanned window is occupied, the scan fails. -/
theorem scan_from_none_spec (occupied : Nat → Bool) :
    ∀ count port,
      (∀ q, port ≤ q → q < port + count → occupied q = true) →
        scan_from occupied port count = none := by
  intro count
  induction count with
  | zero => intro port _; rfl
  | succ c ih =>
    intro port h
    have h0 : occupied port = true := h port (Nat.le_refl _) (by omega)
    rw [scan_from, if_pos (by simp [h0])]
    exact ih (port + 1) (fun q h1 h2 => h q (by omega) (by omega))

/-- C6: `start_socat` scans candidate ports in increasing order over
exactly the 200 values 50000..50200, skips each occupied socket path,
returns the first free port (50002 when 50000 and 50001 are occupied),
and errors out when all 200 paths exist. -/
theorem start_socat_first_free (occupied : Nat → Bool) :
    (∀ p, start_socat occupied = some p →
      50000 ≤ p ∧ p < 50200 ∧ occupied p = false ∧
        ∀ q, 50000 ≤ q → q < p → occupied q = true) ∧
    ((∀ p, 50000 ≤ p → p < 50200 → occupied p = true) →
      start_socat occupied = none) ∧
    ((∀ p, occupied p = decide (p = 50000 ∨ p = 50001)) →
      start_socat occupied = some 50002) := by
  have e : ∀ o : Nat → Bool, start_socat o = scan_from o 50000 200 :=
    fun o => rfl
  refine ⟨?_, ?_, ?_⟩
  · intro p h
    rw [e] at h
    obtain ⟨h1, h2, h3, h4⟩ := scan_from_some_spec occupied 200 50000 p h
    exact ⟨h1, by omega, h3, h4⟩
  · intro h
    rw [e]
    exact scan_from_none_spec occupied 200 50000
      (fun q h1 h2 => h q h1 (by omega))
  · intro h
    have hocc : occupied = fun p => decide (p = 50000 ∨ p = 50001) :=
      funext h
    subst hocc
    decide

/-- Witness for C6: ports 50000 and 50001 occupied, 50002 selected. -/
theorem start_socat_first_free_witness :
    start_socat (fun p => decide (p = 50000 ∨ p = 50001)) = some 50002 :=
  (start_socat_first_free (fun p => decide (p = 50000 ∨ p = 50001))).2.2
    (fun _ => rfl)

/-- One loop step on a successful attempt. -/
theorem launch_loop_ok (att : Nat → Except LaunchError Unit) (i r : Nat)
    (h : att i = .ok ()) : launch_loop att i r = (.requested, 1) := by
  rw [launch_loop.eq_def, h]

/-- One loop step on a Connection error with the retry budget exhausted
(the source's `tries == 3`). -/
theorem launch_loop_conn_zero (att : Nat → Except LaunchError Unit) (i : Nat)
    (m : String) (h : att i = .error (.Connection m)) :
    launch_loop att i 0 = (.fatal (.Connection m), 1) := by
  rw [launch_loop.eq_def, h]

/-- One loop step on a Connection error with retries left. -/
theorem launch_loop_conn_succ (att : Nat → Except LaunchError Unit) (i r : Nat)
    (m : String) (h : att i = .error (.Connection m)) :
    launch_loop att i (r + 1)
      = ((launch_loop att (i + 1) r).1, (launch_loop att (i + 1) r).2 + 1) := by
  rw [launch_loop.eq_def, h]

/-- A non-Connection error stops the loop at once, whatever the budget. -/
theorem launch_loop_nonretry (att : Nat → Except LaunchError Unit) (i r : Nat)
    (e : LaunchError) (h : att i = .error e) (he : e.retryable = false) :
    launch_loop att i r = (.fatal e, 1) := by
  cases e with
  | Connection m => simp [LaunchError.retryable] at he
  | Json m => rw [launch_loop.eq_def, h]
  | Server m => rw [launch_loop.eq_def, h]

/-- When every attempt in the window fails with a Connection error, the
loop uses the whole window and fails with the last error. -/
theorem launch_loop_all_conn (att : Nat → Except LaunchError Unit)
    (msgs : Nat → String) :
    ∀ r i,
      (∀ j, j ≤ r → att (i + j) = .error (.Connection (msgs (i + j)))) →
        launch_loop att i r = (.fatal (.Connection (msgs (i + r))), r + 1) := by
  intro r
  induction r with
  | zero =>
    intro i h
    have h0 := h 0 (Nat.le_refl _)
    rw [Nat.add_zero] at h0 ⊢
    exact launch_loop_conn_zero att i _ h0
  | succ r ih =>
    intro i h
    have h0 := h 0 (Nat.zero_le _)
    rw [Nat.add_zero] at h0
    rw [launch_loop_conn_succ att i r _ h0]
    have hrec := ih (i + 1) (fun j hj => by
      have hx := h (j + 1) (by omega)
      rw [show i + (j + 1) = i + 1 + j by omega] at hx
      exact hx)
    rw [hrec, show i + 1 + r = i + (r + 1) by omega]

/-- A run of Connection errors followed by a success makes the loop
return `requested` after exactly the failed attempts plus one. -/
theorem launch_loop_conn_then_ok (att : Nat → Except LaunchError Unit)
    (msgs : Nat → String) :
    ∀ k r i, k ≤ r →
      (∀ j, j < k → att (i + j) = .error (.Connection (msgs (i + j)))) →
        att (i + k) = .ok () → launch_loop att i r = (.requested, k + 1) := by
  intro k
  induction k with
  | zero =>
    intro r i _ _ hok
    rw [Nat.add_zero] at hok
    exact launch_loop_ok att i r hok
  | succ k ih =>
    intro r i hkr hconn hok
    cases r with
    | zero => omega
    | succ r =>
      have h0 := hconn 0 (by omega)
      rw [Nat.add_zero] at h0
      rw [launch_loop_conn_succ att i r _ h0]
      have hrec := ih r (i + 1) (by omega)
        (fun j hj => by
          have hx := hconn (j + 1) (by omega)
          rw [show i + (j + 1) = i + 1 + j by omega] at hx
          exact hx)
        (by rw [show i + 1 + k = i + (k + 1) by omega]; exact hok)
      rw [hrec]

/-- A run of Connection errors followed by a non-retryable error makes
the loop abort at that error. -/
theorem launch_loop_conn_then_fatal (att : Nat → Except LaunchError Unit)
    (msgs : Nat → String) :
    ∀ k r i (e : LaunchError), k ≤ r →
      (∀ j, j < k → att (i + j) = .error (.Connection (msgs (i + j)))) →
        att (i + k) = .error e → e.retryable = false →
          launch_loop att i r = (.fatal e, k + 1) := by
  intro k
  induction k with
  | zero =>
    intro r i e _ _ herr hret
    rw [Nat.add_zero] at herr
    exact launch_loop_nonretry att i r e herr hret
  | succ k ih =>
    intro r i e hkr hconn herr hret
    cases r with
    | zero => omega
    | succ r =>
      have h0 := hconn 0 (by omega)
      rw [Nat.add_zero] at h0
      rw [launch_loop_conn_succ att i r _ h0]
      have hrec := ih r (i + 1) e (by omega)
        (fun j hj => by
          have hx := hconn (j + 1) (by omega)
          rw [show i + (j + 1) = i + 1 + j by omega] at hx
          exact hx)
        (by rw [show i + 1 + k = i + (k + 1) by omega]; exact herr) hret
      rw [hrec]

/-- The loop's outcome only depends on the attempts inside its window. -/
theorem launch_loop_congr (att att2 : Nat → Except LaunchError Unit) :
    ∀ r i, (∀ j, j ≤ r → att (i + j) = att2 (i + j)) →
      launch_loop att i r = launch_loop att2 i r := by
  intro r
  induction r with
  | zero =>
    intro i h
    have h0 := h 0 (Nat.le_refl _)
    rw [Nat.add_zero] at h0
    rw [launch_loop.eq_def att i, launch_loop.eq_def att2 i, h0]
    cases ha : att2 i with
    | ok a => rfl
    | error e => cases e <;> rfl
  | succ r ih =>
    intro i h
    have h0 := h 0 (Nat.zero_le _)
    rw [Nat.add_zero] at h0
    rw [launch_loop.eq_def att i, launch_loop.eq_def att2 i, h0]
    cases ha : att2 i with
    | ok a => rfl
    | error e =>
      cases e with
      | Connection m =>
        have hrec := ih (i + 1) (fun j hj => by
          have hx := h (j + 1) (by omega)
          rw [show i + (j + 1) = i + 1 + j by omega] at hx
          exact hx)
        simp only [hrec]
      | Json m => rfl
      | Server m => rfl

/-- C1: `request_launch` succeeds exactly when the single response line
is the literal text "OK"; any other line is surfaced whole as a Server
error, and a Server error is never retried by the losing-candidate
loop. -/
theorem request_launch_response (net : NetModel) (resp json : String)
    (hc : net.connect = .ok ()) (hs : net.serialize = .ok json)
    (hw1 : net.writeJson = .ok ()) (hw2 : net.writeEom = .ok ())
    (hf : net.flush = .ok ()) (hr : net.readLine = .ok resp) :
    (request_launch net = .ok () ↔ resp = "OK") ∧
    (resp ≠ "OK" → request_launch net = .error (.Server resp)) ∧
    (∀ att : Nat → Except LaunchError Unit,
      att 0 = .error (.Server resp) →
        launch_loop att 0 3 = (.fatal (.Server resp), 1)) := by
  have hrl : request_launch net
      = if resp = "OK" then .ok () else .error (.Server resp) := by
    rw [request_launch, hc, hs, hw1, hw2, hf, hr]
  refine ⟨?_, ?_, ?_⟩
  · rw [hrl]
    by_cases h : resp = "OK" <;> simp [h]
  · intro h
    rw [hrl, if_neg h]
  · intro a ha
    exact launch_loop_nonretry a 0 3 _ ha rfl

/-- Witness for C1: an "OK" line succeeds, a different line comes back
whole as a Server error. -/
theorem request_launch_response_witness :
    (request_launch ⟨.ok (), .ok "{}", .ok (), .ok (), .ok (), .ok "OK"⟩
      = .ok ()) ∧
    (request_launch
        ⟨.ok (), .ok "{}", .ok (), .ok (), .ok (), .ok "no such command"⟩
      = .error (.Server "no such command")) :=
  ⟨(request_launch_response _ "OK" "{}" rfl rfl rfl rfl rfl rfl).1.mpr rfl,
    (request_launch_response _ "no such command" "{}"
        rfl rfl rfl rfl rfl rfl).2.1 (by decide)⟩

/-- C2: the losing-candidate loop retries only Connection errors, making
at most 4 attempts: 4 consecutive Connection errors fail fatally on the
4th, 3 Connection errors followed by a success return `requested`, any
non-retryable error aborts at once, and attempts past the 4th are never
consulted. -/
theorem launch_retry_policy (att : Nat → Except LaunchError Unit)
    (msgs : Nat → String) :
    ((∀ i, i < 4 → att i = .error (.Connection (msgs i))) →
        launch_loop att 0 3 = (.fatal (.Connection (msgs 3)), 4)) ∧
    ((∀ i, i < 3 → att i = .error (.Connection (msgs i))) → att 3 = .ok () →
        launch_loop att 0 3 = (.requested, 4)) ∧
    (∀ k e, k ≤ 3 →
      (∀ i, i < k → att i = .error (.Connection (msgs i))) →
        att k = .error e → e.retryable = false →
          launch_loop att 0 3 = (.fatal e, k + 1)) ∧
    (∀ att2 : Nat → Except LaunchError Unit, (∀ i, i < 4 → att i = att2 i) →
        launch_loop att 0 3 = launch_loop att2 0 3) := by
  refine ⟨?_, ?_, ?_, ?_⟩
  · intro h
    have hx := launch_loop_all_conn att msgs 3 0
      (fun j hj => by simpa using h j (by omega))
    simpa using hx
  · intro hconn hok
    have hx := launch_loop_conn_then_ok att msgs 3 3 0 (Nat.le_refl _)
      (fun j hj => by simpa using hconn j (by omega)) (by simpa using hok)
    simpa using hx
  · intro k e hk hconn herr hret
    have hx := launch_loop_conn_then_fatal att msgs k 3 0 e hk
      (fun j hj => by simpa using hconn j (by omega)) (by simpa using herr)
      hret
    simpa using hx
  · intro att2 h
    exact launch_loop_congr att att2 3 0
      (fun j hj => by simpa using h j (by omega))

/-- Witness for C2: four consecutive connection errors fail fatally on
the fourth attempt. -/
theorem launch_retry_policy_witness :
    launch_loop (fun _ => .error (.Connection "refused")) 0 3
      = (.fatal (.Connection "refused"), 4) :=
  (launch_retry_policy (fun _ => .error (.Connection "refused"))
      (fun _ => "refused")).1 (fun _ _ => rfl)

end Krun
